import Mathlib

/-!
A shallow embedding of the device sync ingestion pipeline of
`server/index.js` (the `POST /api/bon/sync` handler), together with the
surrounding tables it touches (`clients`, `phones`, `locations`, `BON1`,
`BON2`, `BON1_TEMP`, `BON2_TEMP`).

Modelling conventions:
* each MySQL table is a Lean `List` of a row structure; the insertion
  order of the list mirrors physical insertion order (`RECORDID` /
  auto-increment ordering);
* JavaScript `a || b` on string-typed fields is modelled by `jsStr`
  (which collapses the empty string to `none`, as `""` is falsy) followed
  by `Option.orElse`; `a ?? b` keeps empty strings and only replaces
  `null`/`undefined`, i.e. `Option.getD`;
* numeric JSON values are modelled as `Int` (the pipeline never does
  arithmetic on them, it only stores them);
* timestamps (`NOW()`, `new Date()`) are modelled by an abstract clock
  value `now : Nat` passed to the handler;
* `INSERT ... ON DUPLICATE KEY UPDATE` reports `affectedRows` as the
  mysql2 driver does with its default `FOUND_ROWS` connection flag:
  1 for a fresh insert, 2 for an update that changes the row, 1 for an
  update that leaves the row identical (never 0);
* MySQL `AUTO_INCREMENT` id assignment is modelled as `max id + 1`.
-/

set_option autoImplicit false

namespace GeoTrack

/-- JavaScript truthiness filter for string-valued fields: `x || ...`
falls through both on `null`/`undefined` and on the empty string. -/
def jsStr : Option String → Option String
  | none => none
  | some s => if s = "" then none else some s

/-- Row of the `clients` table, restricted to the columns the sync
pipeline reads or writes. -/
structure ClientRow where
  client_id : Nat := 0
  username : String := ""
  password : String := ""
  full_name : String := ""
  email : Option String := none
  is_admin : Nat := 0
  statut : String := "active"
  last_login : Nat := 0
  nbr_phones : Nat := 0
deriving DecidableEq

/-- Row of the `phones` table. -/
structure PhoneRow where
  phone_id : String := ""
  phone_name : String := ""
  client_id : Nat := 0
  last_update : Nat := 0
deriving DecidableEq

/-- Row of the `locations` table. -/
structure LocationRow where
  phone_id : String := ""
  latitude : Int := 0
  longitude : Int := 0
  date_time : Nat := 0
deriving DecidableEq

/-- Row of the `BON1` / `BON1_TEMP` header tables (all columns written
by the sync endpoint). -/
structure Bon1Row where
  NUM_BON : String
  CODE_CLIENT : Option String
  DATE_BON : Option String
  HEURE : Option String
  NBR_P : Option Int
  TOT_QTE : Option Int
  MODE_TARIF : Option String
  CODE_DEPOT : Option String
  MODE_RG : Option String
  CODE_VENDEUR : Option String
  TOT_HT : Option Int
  TOT_TVA : Option Int
  TIMBRE : Option Int
  TIMBRE_CHECK : Option String
  LATITUDE : Int
  LONGITUDE : Int
  REMISE : Option Int
  MONTANT_ACHAT : Option Int
  ANCIEN_SOLDE : Option Int
  EXPORTATION : Option String
  BLOCAGE : Option String
  VERSER : Option Int
  LIVRER : Int
  DATE_LIV : Option String
  IS_IMPORTED : Int
  IS_EXPORTED : Int
  phone_id : String
deriving DecidableEq

/-- Row of the `BON2` / `BON2_TEMP` line tables. -/
structure Bon2Row where
  CODE_BARRE : Option String
  NUM_BON : String
  PRODUIT : Option String
  NBRE_COLIS : Option Int
  COLISSAGE : Option Int
  QTE_GRAT : Option Int
  QTE : Int
  PV_HT : Option Int
  PA_HT : Option Int
  DESTOCK_TYPE : Option String
  DESTOCK_CODE_BARRE : Option String
  DESTOCK_QTE : Option Int
  TVA : Option Int
  CODE_DEPOT : Option String
deriving DecidableEq

/-- Incoming document header as supplied in the JSON payload (`bon.header`);
every field may be absent. -/
structure BonHeader where
  NUM_BON : Option String := none
  CODE_CLIENT : Option String := none
  DATE_BON : Option String := none
  HEURE : Option String := none
  NBR_P : Option Int := none
  TOT_QTE : Option Int := none
  MODE_TARIF : Option String := none
  CODE_DEPOT : Option String := none
  MODE_RG : Option String := none
  CODE_VENDEUR : Option String := none
  TOT_HT : Option Int := none
  TOT_TVA : Option Int := none
  TIMBRE : Option Int := none
  TIMBRE_CHECK : Option String := none
  LATITUDE : Option Int := none
  LONGITUDE : Option Int := none
  REMISE : Option Int := none
  MONTANT_ACHAT : Option Int := none
  ANCIEN_SOLDE : Option Int := none
  EXPORTATION : Option String := none
  BLOCAGE : Option String := none
  VERSER : Option Int := none
  LIVRER : Option Int := none
  DATE_LIV : Option String := none
  IS_IMPORTED : Option Int := none
  IS_EXPORTED : Option Int := none
deriving DecidableEq

/-- Incoming document line as supplied in the JSON payload (`bon.items[i]`). -/
structure BonItem where
  CODE_BARRE : Option String := none
  PRODUIT : Option String := none
  NBRE_COLIS : Option Int := none
  COLISSAGE : Option Int := none
  QTE_GRAT : Option Int := none
  QTE : Option Int := none
  PV_HT : Option Int := none
  PA_HT : Option Int := none
  DESTOCK_TYPE : Option String := none
  DESTOCK_CODE_BARRE : Option String := none
  DESTOCK_QTE : Option Int := none
  TVA : Option Int := none
  CODE_DEPOT : Option String := none
deriving DecidableEq

/-- Incoming `device` object of the sync payload. -/
structure DeviceInfo where
  device_id : Option String := none
  phone_id : Option String := none
  name : Option String := none
  device_name : Option String := none
  latitude : Option Int := none
  longitude : Option Int := none
  timestamp : Option Nat := none
deriving DecidableEq

/-- One document of the payload: a header and its line items
(`{ header: {...}, items: [...] }`). -/
structure BonDoc where
  header : Option BonHeader := none
  items : List BonItem := []
deriving DecidableEq

/-- The whole `POST /api/bon/sync` request body. -/
structure SyncPayload where
  device : Option DeviceInfo := none
  bon1 : List BonDoc := []
  bon1_temp : List BonDoc := []
deriving DecidableEq

/-- The relational store as seen by the sync pipeline. -/
structure DB where
  clients : List ClientRow := []
  phones : List PhoneRow := []
  locations : List LocationRow := []
  bon1 : List Bon1Row := []
  bon2 : List Bon2Row := []
  bon1_temp : List Bon1Row := []
  bon2_temp : List Bon2Row := []
deriving DecidableEq

/-- The `stats` object of the success response. -/
structure SyncStats where
  updatedBon1 : Nat
  insertedBon2 : Nat
  updatedBon1Temp : Nat
  insertedBon2Temp : Nat
deriving DecidableEq

/-- Outcome of one call to the sync endpoint. -/
inductive SyncResponse where
  | badRequest : SyncResponse
  | ok : String → SyncStats → SyncResponse
  | serverError : SyncResponse
deriving DecidableEq

/-- Final state and response of one call; `connOpened` records whether
`pool.getConnection()` was reached (i.e. whether a transaction was opened). -/
structure SyncResult where
  state : DB
  resp : SyncResponse
  connOpened : Bool
deriving DecidableEq

/-- The default header used when `bon.header` is absent
(`bon && bon.header ? bon.header : \x7b\x7d`). -/
def emptyHeader : BonHeader := {}

/-- The default device object (`payload.device || \x7b\x7d`). -/
def emptyDevice : DeviceInfo := {}

/-- The document number of a payload document, after the falsiness check
`if (!h.NUM_BON) continue` — `none` means the document is skipped. -/
def docNum (d : BonDoc) : Option String :=
  jsStr (d.header.getD emptyHeader).NUM_BON

/-- The device identifier of a batch:
`device.device_id || device.phone_id || null`. -/
def deviceIdOf (p : SyncPayload) : Option String :=
  let d := p.device.getD emptyDevice
  (jsStr d.device_id).orElse (fun _ => jsStr d.phone_id)

/-- Translation of an incoming header to the stored `BON1` row, exactly
following the parameter list at `server/index.js` lines 392–420 / 466–494. -/
def headerRow (did : String) (num : String) (h : BonHeader) : Bon1Row :=
  { NUM_BON := num
    CODE_CLIENT := jsStr h.CODE_CLIENT
    DATE_BON := jsStr h.DATE_BON
    HEURE := jsStr h.HEURE
    NBR_P := h.NBR_P
    TOT_QTE := h.TOT_QTE
    MODE_TARIF := jsStr h.MODE_TARIF
    CODE_DEPOT := jsStr h.CODE_DEPOT
    MODE_RG := jsStr h.MODE_RG
    CODE_VENDEUR := jsStr h.CODE_VENDEUR
    TOT_HT := h.TOT_HT
    TOT_TVA := h.TOT_TVA
    TIMBRE := h.TIMBRE
    TIMBRE_CHECK := jsStr h.TIMBRE_CHECK
    LATITUDE := h.LATITUDE.getD 0
    LONGITUDE := h.LONGITUDE.getD 0
    REMISE := h.REMISE
    MONTANT_ACHAT := h.MONTANT_ACHAT
    ANCIEN_SOLDE := h.ANCIEN_SOLDE
    EXPORTATION := jsStr h.EXPORTATION
    BLOCAGE := jsStr h.BLOCAGE
    VERSER := h.VERSER
    LIVRER := h.LIVRER.getD 0
    DATE_LIV := jsStr h.DATE_LIV
    IS_IMPORTED := h.IS_IMPORTED.getD 0
    IS_EXPORTED := h.IS_EXPORTED.getD 0
    phone_id := did }

/-- Translation of an incoming line to the stored `BON2` row
(`server/index.js` lines 427–442 / 500–515); `hdrDepot` is the parent
header's raw `CODE_DEPOT`, used in `it.CODE_DEPOT || h.CODE_DEPOT || null`. -/
def itemRow (num : String) (hdrDepot : Option String) (it : BonItem) : Bon2Row :=
  { CODE_BARRE := jsStr it.CODE_BARRE
    NUM_BON := num
    PRODUIT := jsStr it.PRODUIT
    NBRE_COLIS := it.NBRE_COLIS
    COLISSAGE := it.COLISSAGE
    QTE_GRAT := it.QTE_GRAT
    QTE := it.QTE.getD 0
    PV_HT := it.PV_HT
    PA_HT := it.PA_HT
    DESTOCK_TYPE := jsStr it.DESTOCK_TYPE
    DESTOCK_CODE_BARRE := jsStr it.DESTOCK_CODE_BARRE
    DESTOCK_QTE := it.DESTOCK_QTE
    TVA := it.TVA
    CODE_DEPOT := (jsStr it.CODE_DEPOT).orElse (fun _ => jsStr hdrDepot) }

/-- First row of the header table whose `NUM_BON` equals `num`
(`SELECT ... WHERE NUM_BON = ? LIMIT`-style lookup, also the duplicate-key
probe of the upsert). -/
def findB1 (num : String) : List Bon1Row → Option Bon1Row
  | [] => none
  | r :: rs => if r.NUM_BON = num then some r else findB1 num rs

/-- In-place overwrite of every header row keyed `row.NUM_BON`
(the `ON DUPLICATE KEY UPDATE` branch: all columns set to the new values). -/
def replaceB1 (row : Bon1Row) : List Bon1Row → List Bon1Row
  | [] => []
  | r :: rs => (if r.NUM_BON = row.NUM_BON then row else r) :: replaceB1 row rs

/-- `INSERT ... ON DUPLICATE KEY UPDATE` on a header table, keyed by
`NUM_BON`; returns the new table and the driver's `affectedRows` value
(1 insert, 2 changing update, 1 identical update — mysql2 default
`FOUND_ROWS` flag). -/
def upsertB1 (row : Bon1Row) (t : List Bon1Row) : List Bon1Row × Nat :=
  match findB1 row.NUM_BON t with
  | none => (t ++ [row], 1)
  | some old => (replaceB1 row t, if old = row then 1 else 2)

/-- `DELETE FROM BON2 WHERE NUM_BON = ?`. -/
def deleteB2 (num : String) : List Bon2Row → List Bon2Row
  | [] => []
  | r :: rs => if r.NUM_BON = num then deleteB2 num rs else r :: deleteB2 num rs

/-- Running state of the per-family document loop: the two tables plus
the `updatedBon1` / `insertedBon2` counters. -/
structure DocState where
  t1 : List Bon1Row
  t2 : List Bon2Row
  headers : Nat
  lines : Nat
deriving DecidableEq

/-- One iteration of the document loop (`server/index.js` lines 389–446):
skip when the number is falsy, otherwise upsert the header, delete the
lines of that number and re-insert the submitted items in order. -/
def processDoc (did : String) (d : BonDoc) (st : DocState) : DocState :=
  match docNum d with
  | none => st
  | some num =>
    let h := d.header.getD emptyHeader
    let up := upsertB1 (headerRow did num h) st.t1
    { t1 := up.1
      t2 := deleteB2 num st.t2 ++ d.items.map (itemRow num h.CODE_DEPOT)
      headers := st.headers + (if up.2 ≠ 0 then 1 else 0)
      lines := st.lines + d.items.length }

/-- The whole loop over one document family, in submission order. -/
def processDocs (did : String) (docs : List BonDoc) (st : DocState) : DocState :=
  match docs with
  | [] => st
  | d :: ds => processDocs did ds (processDoc did d st)

/-- Largest `client_id` present (MySQL `AUTO_INCREMENT` floor). -/
def maxClientId : List ClientRow → Nat
  | [] => 0
  | c :: cs => max c.client_id (maxClientId cs)

/-- `SELECT ... FROM clients WHERE username = ? LIMIT 1`. -/
def findClientByUsername (u : String) : List ClientRow → Option ClientRow
  | [] => none
  | c :: cs => if c.username = u then some c else findClientByUsername u cs

/-- The `INSERT INTO clients (...) VALUES ('device_sync', 'sync', ...)`
fallback-account creation; returns the new table and `insertId`. -/
def insertSyncClient (now : Nat) (cs : List ClientRow) : List ClientRow × Nat :=
  let newId := maxClientId cs + 1
  (cs ++ [{ client_id := newId, username := "device_sync", password := "sync",
            full_name := "Device Sync", email := none, is_admin := 0,
            statut := "active", last_login := now, nbr_phones := 0 }], newId)

/-- Lines 340–349: look up the `device_sync` client; the JS truthiness
test `clientRows[0].client_id ? Number(...) : null` treats id 0 as
missing, so a found row with id 0 also triggers the insert. -/
def ensureSyncClient (now : Nat) (cs : List ClientRow) : List ClientRow × Nat :=
  match findClientByUsername "device_sync" cs with
  | some c => if c.client_id ≠ 0 then (cs, c.client_id) else insertSyncClient now cs
  | none => insertSyncClient now cs

/-- `SELECT ... FROM phones WHERE phone_id = ?` (also the duplicate-key
probe of the phone upsert). -/
def findPhone (pid : String) : List PhoneRow → Option PhoneRow
  | [] => none
  | p :: ps => if p.phone_id = pid then some p else findPhone pid ps

/-- Lines 353–358: `INSERT INTO phones (...) VALUES (?,?,?,NOW())
ON DUPLICATE KEY UPDATE last_update = NOW()` — on conflict only the
last-contact timestamp changes; `phone_name` and `client_id` are kept. -/
def upsertPhone (now : Nat) (pid name : String) (cid : Nat)
    (ps : List PhoneRow) : List PhoneRow :=
  match findPhone pid ps with
  | none => ps ++ [{ phone_id := pid, phone_name := name, client_id := cid,
                     last_update := now }]
  | some _ => ps.map (fun p => if p.phone_id = pid then { p with last_update := now } else p)

/-- The display name chosen for the phone row:
`device.name || device.device_name || 'Device'`. -/
def phoneNameOf (d : DeviceInfo) : String :=
  ((jsStr d.name).orElse (fun _ => jsStr d.device_name)).getD "Device"

/-- Location timestamp: `device.timestamp || new Date()` (a 0 timestamp is
falsy in JS and also falls back to the receipt time). -/
def jsTs (o : Option Nat) (now : Nat) : Nat :=
  match o with
  | some t => if t = 0 then now else t
  | none => now

/-- The `POST /api/bon/sync` handler (`server/index.js` lines 330–539) as a
deterministic state transformer, for executions in which every query
succeeds and the transaction commits. -/
def processSync (now : Nat) (p : SyncPayload) (s : DB) : SyncResult :=
  match deviceIdOf p with
  | none => { state := s, resp := .badRequest, connOpened := false }
  | some did =>
    let d := p.device.getD emptyDevice
    let ec := ensureSyncClient now s.clients
    let phones2 := upsertPhone now did (phoneNameOf d) ec.2 s.phones
    let locations2 :=
      match d.latitude, d.longitude with
      | some la, some lo =>
        s.locations ++ [{ phone_id := did, latitude := la, longitude := lo,
                          date_time := jsTs d.timestamp now }]
      | _, _ => s.locations
    let st1 := processDocs did p.bon1 { t1 := s.bon1, t2 := s.bon2, headers := 0, lines := 0 }
    let st2 := processDocs did p.bon1_temp
      { t1 := s.bon1_temp, t2 := s.bon2_temp, headers := 0, lines := 0 }
    { state := { clients := ec.1, phones := phones2, locations := locations2,
                 bon1 := st1.t1, bon2 := st1.t2,
                 bon1_temp := st2.t1, bon2_temp := st2.t2 }
      resp := .ok did { updatedBon1 := st1.headers, insertedBon2 := st1.lines,
                        updatedBon1Temp := st2.headers, insertedBon2Temp := st2.lines }
      connOpened := true }

/-!
Transactional model with per-query fault injection, for the rollback
claim. Every awaited `conn.query(...)` of the handler consumes one unit
of `fuel`; the query at which the fuel runs out raises, the handler's
`catch` block then issues `conn.rollback()`, so the observable state
reverts to the pre-batch snapshot. A run with fuel left at the final
`conn.commit()` commits and behaves like `processSync`.
-/

/-- Consume one unit of fuel for one `conn.query`; `none` is the query
that throws the storage error. -/
def useFuel : Nat → Option Nat
  | 0 => none
  | f + 1 => some f

/-- The per-item insert loop of one document, fuel-threaded. -/
def insertItemsTx (num : String) (hdrDepot : Option String) :
    List BonItem → List Bon2Row → Nat → Option (List Bon2Row × Nat)
  | [], t2, fuel => some (t2, fuel)
  | it :: its, t2, fuel =>
    match useFuel fuel with
    | none => none
    | some f => insertItemsTx num hdrDepot its (t2 ++ [itemRow num hdrDepot it]) f

/-- One iteration of the document loop, fuel-threaded: header upsert
(one query), line delete (one query), then one query per inserted line. -/
def processDocTx (did : String) (d : BonDoc) (st : DocState) (fuel : Nat) :
    Option (DocState × Nat) :=
  match docNum d with
  | none => some (st, fuel)
  | some num =>
    let h := d.header.getD emptyHeader
    match useFuel fuel with
    | none => none
    | some f1 =>
      let up := upsertB1 (headerRow did num h) st.t1
      match useFuel f1 with
      | none => none
      | some f2 =>
        match insertItemsTx num h.CODE_DEPOT d.items (deleteB2 num st.t2) f2 with
        | none => none
        | some (t2, f3) =>
          some ({ t1 := up.1, t2 := t2,
                  headers := st.headers + (if up.2 ≠ 0 then 1 else 0),
                  lines := st.lines + d.items.length }, f3)

/-- The fuel-threaded loop over one document family. -/
def processDocsTx (did : String) : List BonDoc → DocState → Nat →
    Option (DocState × Nat)
  | [], st, fuel => some (st, fuel)
  | d :: ds, st, fuel =>
    match processDocTx did d st fuel with
    | none => none
    | some (st2, f2) => processDocsTx did ds st2 f2

/-- Fuel-threaded `device_sync`-client resolution: one query for the
`SELECT`, plus one for the `INSERT` when the account is missing. -/
def ensureSyncClientTx (now : Nat) (cs : List ClientRow) (fuel : Nat) :
    Option (List ClientRow × Nat × Nat) :=
  match useFuel fuel with
  | none => none
  | some f1 =>
    match findClientByUsername "device_sync" cs with
    | some c =>
      if c.client_id ≠ 0 then some (cs, c.client_id, f1)
      else
        match useFuel f1 with
        | none => none
        | some f2 =>
          let ins := insertSyncClient now cs
          some (ins.1, ins.2, f2)
    | none =>
      match useFuel f1 with
      | none => none
      | some f2 =>
        let ins := insertSyncClient now cs
        some (ins.1, ins.2, f2)

/-- The transaction body of the sync handler (everything between
`beginTransaction` and `commit`, the `commit` query included), with a
storage fault injected after `fuel` successful queries; `none` means
some query (or the commit itself) threw. -/
def syncTxBody (now fuel : Nat) (d : DeviceInfo) (did : String)
    (bon1 bon1Temp : List BonDoc) (s : DB) : Option (DB × SyncStats) := do
  let (clients2, cid, f1) ← ensureSyncClientTx now s.clients fuel
  let f2 ← useFuel f1
  let phones2 := upsertPhone now did (phoneNameOf d) cid s.phones
  let (locations2, f3) ←
    match d.latitude, d.longitude with
    | some la, some lo =>
      (useFuel f2).map (fun f =>
        (s.locations ++ [{ phone_id := did, latitude := la, longitude := lo,
                           date_time := jsTs d.timestamp now }], f))
    | _, _ => some (s.locations, f2)
  let (st1, f4) ← processDocsTx did bon1
    { t1 := s.bon1, t2 := s.bon2, headers := 0, lines := 0 } f3
  let (st2, f5) ← processDocsTx did bon1Temp
    { t1 := s.bon1_temp, t2 := s.bon2_temp, headers := 0, lines := 0 } f4
  let _ ← useFuel f5  -- conn.commit()
  pure ({ clients := clients2, phones := phones2, locations := locations2,
          bon1 := st1.t1, bon2 := st1.t2,
          bon1_temp := st2.t1, bon2_temp := st2.t2 },
        { updatedBon1 := st1.headers, insertedBon2 := st1.lines,
          updatedBon1Temp := st2.headers, insertedBon2Temp := st2.lines })

/-- The `POST /api/bon/sync` handler with a storage fault injected after
`fuel` successful queries. The whole body runs inside the transaction
opened at line 338; the `catch` at lines 532–535 rolls it back, so a
faulted run returns the pre-batch state with a 500 response. -/
def processSyncTx (now : Nat) (fuel : Nat) (p : SyncPayload) (s : DB) : SyncResult :=
  match deviceIdOf p with
  | none => { state := s, resp := .badRequest, connOpened := false }
  | some did =>
    match syncTxBody now fuel (p.device.getD emptyDevice) did p.bon1 p.bon1_temp s with
    | none => { state := s, resp := .serverError, connOpened := true }
    | some (s2, stats) => { state := s2, resp := .ok did stats, connOpened := true }

/-!
Observation helpers used to state the claims: per-document-number views of
the header and line tables, key uniqueness, and batch-derived quantities.
-/

/-- All header rows stored under a given document number. -/
def rowsB1 (num : String) : List Bon1Row → List Bon1Row
  | [] => []
  | r :: rs => if r.NUM_BON = num then r :: rowsB1 num rs else rowsB1 num rs

/-- All line rows stored under a given document number, in stored order. -/
def rowsB2 (num : String) : List Bon2Row → List Bon2Row
  | [] => []
  | r :: rs => if r.NUM_BON = num then r :: rowsB2 num rs else rowsB2 num rs

/-- The header table's `NUM_BON` unique-key invariant: no two rows share a
document number (Bool-valued so concrete instances evaluate). -/
def uniqB1 : List Bon1Row → Bool
  | [] => true
  | r :: rs => decide (rowsB1 r.NUM_BON rs = []) && uniqB1 rs

/-- The last document of a family whose (truthy) number is `num` — the
one whose header and lines win within a single batch. -/
def lastDocFor (num : String) : List BonDoc → Option BonDoc
  | [] => none
  | d :: ds =>
    match lastDocFor num ds with
    | some r => some r
    | none => if docNum d = some num then some d else none

/-- Number of documents of a family that pass the `NUM_BON` check. -/
def validDocCount : List BonDoc → Nat
  | [] => 0
  | d :: ds => (if (docNum d).isSome then 1 else 0) + validDocCount ds

/-- Total number of line rows a family's loop inserts. -/
def submittedLines : List BonDoc → Nat
  | [] => 0
  | d :: ds => (if (docNum d).isSome then d.items.length else 0) + submittedLines ds

/-- Equality of the four document-store tables as seen per document
number (same header row set and same ordered line set for every number). -/
def docTablesEq (a b : DB) : Prop :=
  ∀ num : String,
    rowsB1 num a.bon1 = rowsB1 num b.bon1 ∧
    rowsB2 num a.bon2 = rowsB2 num b.bon2 ∧
    rowsB1 num a.bon1_temp = rowsB1 num b.bon1_temp ∧
    rowsB2 num a.bon2_temp = rowsB2 num b.bon2_temp

/-- Sanity condition on the `clients` table: any row named `device_sync`
has a nonzero id (MySQL auto-increment ids start at 1; the handler's JS
truthiness test `clientRows[0].client_id ? ... : null` would treat a
zero id as a missing account). -/
def goodClients (cs : List ClientRow) : Prop :=
  ∀ c ∈ cs, c.username = "device_sync" → c.client_id ≠ 0

instance (cs : List ClientRow) : Decidable (goodClients cs) :=
  inferInstanceAs (Decidable (∀ c ∈ cs, c.username = "device_sync" → c.client_id ≠ 0))

/-- The effective header of a payload document
(`bon && bon.header ? bon.header : \x7b\x7d`). -/
def hdrOf (d : BonDoc) : BonHeader := d.header.getD emptyHeader

/-! ### Concrete fixtures used by witnesses and counterexamples -/

/-- The `device_sync` fallback account, as the handler creates it. -/
def dsClient : ClientRow :=
  { client_id := 1, username := "device_sync", password := "sync",
    full_name := "Device Sync", statut := "active" }

/-- A minimal sales header (the concrete scenario of the spec, §8). -/
def demoHeader : BonHeader := { NUM_BON := some "B1", TOT_HT := some 100 }

/-- A minimal sales line. -/
def demoItem : BonItem := { CODE_BARRE := some "X", QTE := some 2 }

/-- A minimal sales document. -/
def demoDoc : BonDoc := { header := some demoHeader, items := [demoItem] }

/-- A device object carrying an id and coordinates. -/
def demoDevice : DeviceInfo :=
  { device_id := some "dev1", latitude := some 36, longitude := some 3 }

/-- A one-document sales batch. -/
def demoPayload : SyncPayload := { device := some demoDevice, bon1 := [demoDoc] }

/-- A store that already contains the fallback account and nothing else. -/
def demoDB : DB := { clients := [dsClient] }

/-- A document whose header lacks `NUM_BON` (skipped by the loop). -/
def badDoc : BonDoc := { header := some { TOT_HT := some 5 } }

/-- `demoPayload` with the malformed document appended. -/
def c6PayloadBad : SyncPayload :=
  { device := some demoDevice, bon1 := [demoDoc, badDoc] }

/-- A second, non-fallback account. -/
def aliceClient : ClientRow := { client_id := 2, username := "alice", password := "pw" }

/-- Device `dev1` already owned by the non-fallback account. -/
def alicePhone : PhoneRow := { phone_id := "dev1", phone_name := "Phone A", client_id := 2 }

/-- Store in which `dev1` belongs to account 2 while the sync context
implies the fallback account 1. -/
def cexState : DB := { clients := [dsClient, aliceClient], phones := [alicePhone] }

/-- A header with every optional field absent. -/
def bareHeader : BonHeader := { NUM_BON := some "B9" }

/-- A one-document batch whose header has only a number. -/
def barePayload : SyncPayload :=
  { device := some { device_id := some "dev1" }, bon1 := [{ header := some bareHeader }] }

/-- A header carrying a depot code. -/
def depotHeader : BonHeader := { NUM_BON := some "B2", CODE_DEPOT := some "D1" }

/-- A line with every field absent (in particular no depot code and no
quantity). -/
def depotItem : BonItem := {}

/-- Document pairing the depot-carrying header with the bare line. -/
def depotDoc : BonDoc := { header := some depotHeader, items := [depotItem] }

/-- Batch containing `depotDoc`. -/
def depotPayload : SyncPayload :=
  { device := some { device_id := some "dev1" }, bon1 := [depotDoc] }

/-- A device object supplying only `phone_id`. -/
def phoneOnlyPayload : SyncPayload := { device := some { phone_id := some "p7" } }

/-- A batch with no device identifier at all. -/
def noDevPayload : SyncPayload := { bon1 := [demoDoc] }

/-! ### Lemmas about the per-number table views -/

theorem rowsB1_append (num : String) (a b : List Bon1Row) :
    rowsB1 num (a ++ b) = rowsB1 num a ++ rowsB1 num b := by
  induction a with
  | nil => rfl
  | cons r rs ih =>
    simp only [List.cons_append, rowsB1]
    split <;> simp [ih]

theorem rowsB2_append (num : String) (a b : List Bon2Row) :
    rowsB2 num (a ++ b) = rowsB2 num a ++ rowsB2 num b := by
  induction a with
  | nil => rfl
  | cons r rs ih =>
    simp only [List.cons_append, rowsB2]
    split <;> simp [ih]

theorem rowsB1_of_findB1_none (num : String) (t : List Bon1Row)
    (h : findB1 num t = none) : rowsB1 num t = [] := by
  induction t with
  | nil => rfl
  | cons r rs ih =>
    rw [findB1] at h
    by_cases hr : r.NUM_BON = num
    · simp [hr] at h
    · rw [if_neg hr] at h
      simp [rowsB1, hr, ih h]

theorem rowsB1_cons_nil (k : String) (r : Bon1Row) (rs : List Bon1Row)
    (h : rowsB1 k (r :: rs) = []) : r.NUM_BON ≠ k ∧ rowsB1 k rs = [] := by
  rw [rowsB1] at h
  by_cases hr : r.NUM_BON = k
  · simp [hr] at h
  · rw [if_neg hr] at h
    exact ⟨hr, h⟩

theorem uniqB1_cons (r : Bon1Row) (rs : List Bon1Row) :
    uniqB1 (r :: rs) = true ↔ rowsB1 r.NUM_BON rs = [] ∧ uniqB1 rs = true := by
  simp [uniqB1]

theorem rowsB1_of_findB1_some (num : String) (t : List Bon1Row) (old : Bon1Row)
    (hu : uniqB1 t = true) (h : findB1 num t = some old) : rowsB1 num t = [old] := by
  induction t with
  | nil => simp [findB1] at h
  | cons r rs ih =>
    rw [uniqB1_cons] at hu
    rw [findB1] at h
    by_cases hr : r.NUM_BON = num
    · rw [if_pos hr] at h
      obtain rfl : r = old := by simpa using h
      have hnil : rowsB1 num rs = [] := by rw [← hr]; exact hu.1
      simp [rowsB1, hr, hnil]
    · rw [if_neg hr] at h
      simp [rowsB1, hr, ih hu.2 h]

theorem rowsB1_replaceB1_eq (row : Bon1Row) (t : List Bon1Row) :
    rowsB1 row.NUM_BON (replaceB1 row t) =
      (rowsB1 row.NUM_BON t).map (fun _ => row) := by
  induction t with
  | nil => rfl
  | cons r rs ih =>
    simp only [replaceB1, rowsB1]
    by_cases hr : r.NUM_BON = row.NUM_BON
    · simp [hr, ih]
    · simp [hr, ih]

theorem rowsB1_replaceB1_ne (row : Bon1Row) (num : String) (hne : num ≠ row.NUM_BON)
    (t : List Bon1Row) : rowsB1 num (replaceB1 row t) = rowsB1 num t := by
  induction t with
  | nil => rfl
  | cons r rs ih =>
    simp only [replaceB1, rowsB1]
    by_cases hr : r.NUM_BON = row.NUM_BON
    · have hrow : ¬ (row.NUM_BON = num) := fun hh => hne hh.symm
      have hr2 : ¬ (r.NUM_BON = num) := by rw [hr]; exact hrow
      simp [hr, hrow, hr2, ih]
    · simp [hr, ih]

theorem uniqB1_append_new (t : List Bon1Row) (row : Bon1Row)
    (hu : uniqB1 t = true) (hnew : rowsB1 row.NUM_BON t = []) :
    uniqB1 (t ++ [row]) = true := by
  induction t with
  | nil => simp [uniqB1, rowsB1]
  | cons r rs ih =>
    rw [uniqB1_cons] at hu
    obtain ⟨hne, hrs⟩ := rowsB1_cons_nil _ _ _ hnew
    rw [List.cons_append, uniqB1_cons]
    constructor
    · have hne2 : ¬ (row.NUM_BON = r.NUM_BON) := fun hh => hne hh.symm
      simp [rowsB1_append, hu.1, rowsB1, hne2]
    · exact ih hu.2 hrs

theorem uniqB1_replaceB1 (row : Bon1Row) (t : List Bon1Row) (hu : uniqB1 t = true) :
    uniqB1 (replaceB1 row t) = true := by
  induction t with
  | nil => simp [replaceB1, uniqB1]
  | cons r rs ih =>
    rw [uniqB1_cons] at hu
    by_cases hr : r.NUM_BON = row.NUM_BON
    · simp only [replaceB1, if_pos hr]
      rw [uniqB1_cons]
      refine ⟨?_, ih hu.2⟩
      rw [rowsB1_replaceB1_eq]
      have : rowsB1 row.NUM_BON rs = [] := by rw [← hr]; exact hu.1
      simp [this]
    · simp only [replaceB1, if_neg hr]
      rw [uniqB1_cons]
      refine ⟨?_, ih hu.2⟩
      rw [rowsB1_replaceB1_ne row r.NUM_BON hr]
      exact hu.1

theorem rowsB1_upsertB1_self (row : Bon1Row) (t : List Bon1Row)
    (hu : uniqB1 t = true) :
    rowsB1 row.NUM_BON (upsertB1 row t).1 = [row] := by
  cases hf : findB1 row.NUM_BON t with
  | none =>
    simp only [upsertB1, hf]
    rw [rowsB1_append, rowsB1_of_findB1_none _ _ hf]
    simp [rowsB1]
  | some old =>
    simp only [upsertB1, hf]
    rw [rowsB1_replaceB1_eq, rowsB1_of_findB1_some _ _ _ hu hf]
    rfl

theorem rowsB1_upsertB1_other (row : Bon1Row) (num : String)
    (hne : num ≠ row.NUM_BON) (t : List Bon1Row) :
    rowsB1 num (upsertB1 row t).1 = rowsB1 num t := by
  cases hf : findB1 row.NUM_BON t with
  | none =>
    simp only [upsertB1, hf]
    rw [rowsB1_append]
    have hne2 : ¬ (row.NUM_BON = num) := fun hh => hne hh.symm
    simp [rowsB1, hne2]
  | some old =>
    simp only [upsertB1, hf]
    exact rowsB1_replaceB1_ne row num hne t

theorem uniqB1_upsertB1 (row : Bon1Row) (t : List Bon1Row) (hu : uniqB1 t = true) :
    uniqB1 (upsertB1 row t).1 = true := by
  cases hf : findB1 row.NUM_BON t with
  | none =>
    simp only [upsertB1, hf]
    exact uniqB1_append_new t row hu (rowsB1_of_findB1_none _ _ hf)
  | some old =>
    simp only [upsertB1, hf]
    exact uniqB1_replaceB1 row t hu

theorem upsertB1_aff_pos (row : Bon1Row) (t : List Bon1Row) :
    (upsertB1 row t).2 ≠ 0 := by
  cases hf : findB1 row.NUM_BON t with
  | none => simp [upsertB1, hf]
  | some old =>
    simp only [upsertB1, hf]
    split <;> simp

theorem rowsB2_deleteB2_self (num : String) (t : List Bon2Row) :
    rowsB2 num (deleteB2 num t) = [] := by
  induction t with
  | nil => rfl
  | cons r rs ih =>
    rw [deleteB2]
    by_cases hr : r.NUM_BON = num
    · simp [hr, ih]
    · simp [rowsB2, hr, ih]

theorem rowsB2_deleteB2_other (num k : String) (hne : num ≠ k) (t : List Bon2Row) :
    rowsB2 num (deleteB2 k t) = rowsB2 num t := by
  induction t with
  | nil => rfl
  | cons r rs ih =>
    rw [deleteB2]
    by_cases hr : r.NUM_BON = k
    · have h1 : ¬ (r.NUM_BON = num) := by rw [hr]; exact fun hh => hne hh.symm
      have h2 : ¬ (k = num) := fun hh => hne hh.symm
      simp [hr, rowsB2, h1, h2, ih]
    · simp [rowsB2, hr, ih]

theorem rowsB2_map_itemRow_self (num : String) (hd : Option String)
    (items : List BonItem) :
    rowsB2 num (items.map (itemRow num hd)) = items.map (itemRow num hd) := by
  induction items with
  | nil => rfl
  | cons it its ih => simp [rowsB2, itemRow, ih]

theorem rowsB2_map_itemRow_other (num k : String) (hne : num ≠ k)
    (hd : Option String) (items : List BonItem) :
    rowsB2 num (items.map (itemRow k hd)) = [] := by
  induction items with
  | nil => rfl
  | cons it its ih =>
    have : ¬ ((itemRow k hd it).NUM_BON = num) := fun hh => hne (hh.symm)
    simp only [List.map_cons, rowsB2, this, if_neg]
    exact ih

/-! ### Characterization of one loop iteration -/

theorem processDoc_t1 (did : String) (d : BonDoc) (st : DocState) (num : String)
    (hu : uniqB1 st.t1 = true) :
    rowsB1 num (processDoc did d st).t1 =
      match docNum d with
      | some k =>
        if num = k then [headerRow did k (d.header.getD emptyHeader)]
        else rowsB1 num st.t1
      | none => rowsB1 num st.t1 := by
  cases hk : docNum d with
  | none => simp [processDoc, hk]
  | some k =>
    simp only [processDoc, hk]
    by_cases hnum : num = k
    · subst hnum
      have hrow := rowsB1_upsertB1_self (headerRow did num (d.header.getD emptyHeader)) st.t1 hu
      simpa using hrow
    · have hne : num ≠ (headerRow did k (d.header.getD emptyHeader)).NUM_BON := hnum
      simp [rowsB1_upsertB1_other _ _ hne, hnum]

theorem processDoc_t2 (did : String) (d : BonDoc) (st : DocState) (num : String) :
    rowsB2 num (processDoc did d st).t2 =
      match docNum d with
      | some k =>
        if num = k then d.items.map (itemRow k (d.header.getD emptyHeader).CODE_DEPOT)
        else rowsB2 num st.t2
      | none => rowsB2 num st.t2 := by
  cases hk : docNum d with
  | none => simp [processDoc, hk]
  | some k =>
    simp only [processDoc, hk]
    rw [rowsB2_append]
    by_cases hnum : num = k
    · subst hnum
      rw [rowsB2_deleteB2_self, rowsB2_map_itemRow_self]
      simp
    · rw [rowsB2_deleteB2_other num k hnum, rowsB2_map_itemRow_other num k hnum]
      simp [hnum]

theorem processDoc_uniq (did : String) (d : BonDoc) (st : DocState)
    (hu : uniqB1 st.t1 = true) : uniqB1 (processDoc did d st).t1 = true := by
  cases hk : docNum d with
  | none => simpa [processDoc, hk] using hu
  | some k =>
    simp only [processDoc, hk]
    exact uniqB1_upsertB1 _ _ hu

theorem processDoc_headers (did : String) (d : BonDoc) (st : DocState) :
    (processDoc did d st).headers =
      st.headers + (if (docNum d).isSome then 1 else 0) := by
  cases hk : docNum d with
  | none => simp [processDoc, hk]
  | some k =>
    simp only [processDoc, hk, Option.isSome_some, if_true]
    have := upsertB1_aff_pos (headerRow did k (d.header.getD emptyHeader)) st.t1
    simp [this]

theorem processDoc_lines (did : String) (d : BonDoc) (st : DocState) :
    (processDoc did d st).lines =
      st.lines + (if (docNum d).isSome then d.items.length else 0) := by
  cases hk : docNum d with
  | none => simp [processDoc, hk]
  | some k => simp [processDoc, hk]

theorem processDoc_skip (did : String) (d : BonDoc) (st : DocState)
    (h : docNum d = none) : processDoc did d st = st := by
  simp [processDoc, h]

/-! ### Characterization of the whole per-family loop -/

theorem processDocs_uniq (did : String) (docs : List BonDoc) (st : DocState)
    (hu : uniqB1 st.t1 = true) : uniqB1 (processDocs did docs st).t1 = true := by
  induction docs generalizing st with
  | nil => exact hu
  | cons d ds ih => exact ih _ (processDoc_uniq did d st hu)

theorem processDocs_t1 (did : String) (docs : List BonDoc) (st : DocState)
    (num : String) (hu : uniqB1 st.t1 = true) :
    rowsB1 num (processDocs did docs st).t1 =
      match lastDocFor num docs with
      | some d => [headerRow did num (d.header.getD emptyHeader)]
      | none => rowsB1 num st.t1 := by
  induction docs generalizing st with
  | nil => rfl
  | cons d ds ih =>
    rw [processDocs, ih _ (processDoc_uniq did d st hu)]
    cases hl : lastDocFor num ds with
    | some d2 => simp [lastDocFor, hl]
    | none =>
      simp only [lastDocFor, hl]
      rw [processDoc_t1 did d st num hu]
      cases hk : docNum d with
      | none =>
        have : ¬ (docNum d = some num) := by rw [hk]; simp
        simp [this]
      | some k =>
        by_cases hnum : num = k
        · subst hnum
          simp [hk]
        · have hkn : ¬ (k = num) := fun hh => hnum hh.symm
          simp [hnum, hkn]

theorem processDocs_t2 (did : String) (docs : List BonDoc) (st : DocState)
    (num : String) :
    rowsB2 num (processDocs did docs st).t2 =
      match lastDocFor num docs with
      | some d => d.items.map (itemRow num (d.header.getD emptyHeader).CODE_DEPOT)
      | none => rowsB2 num st.t2 := by
  induction docs generalizing st with
  | nil => rfl
  | cons d ds ih =>
    rw [processDocs, ih]
    cases hl : lastDocFor num ds with
    | some d2 => simp [lastDocFor, hl]
    | none =>
      simp only [lastDocFor, hl]
      rw [processDoc_t2 did d st num]
      cases hk : docNum d with
      | none =>
        have : ¬ (docNum d = some num) := by rw [hk]; simp
        simp [this]
      | some k =>
        by_cases hnum : num = k
        · subst hnum
          simp [hk]
        · have hkn : ¬ (k = num) := fun hh => hnum hh.symm
          simp [hnum, hkn]

theorem processDocs_headers (did : String) (docs : List BonDoc) (st : DocState) :
    (processDocs did docs st).headers = st.headers + validDocCount docs := by
  induction docs generalizing st with
  | nil => simp [processDocs, validDocCount]
  | cons d ds ih =>
    rw [processDocs, ih, processDoc_headers, validDocCount]
    omega

theorem processDocs_lines (did : String) (docs : List BonDoc) (st : DocState) :
    (processDocs did docs st).lines = st.lines + submittedLines docs := by
  induction docs generalizing st with
  | nil => simp [processDocs, submittedLines]
  | cons d ds ih =>
    rw [processDocs, ih, processDoc_lines, submittedLines]
    omega

theorem processDocs_append (did : String) (a b : List BonDoc) (st : DocState) :
    processDocs did (a ++ b) st = processDocs did b (processDocs did a st) := by
  induction a generalizing st with
  | nil => rfl
  | cons d ds ih => rw [List.cons_append, processDocs, processDocs, ih]

/-! ### Projections of a committed sync run -/

theorem processSync_state_bon1 (now : Nat) (p : SyncPayload) (s : DB) (did : String)
    (hdid : deviceIdOf p = some did) :
    (processSync now p s).state.bon1 =
      (processDocs did p.bon1 { t1 := s.bon1, t2 := s.bon2, headers := 0, lines := 0 }).t1 := by
  simp [processSync, hdid]

theorem processSync_state_bon2 (now : Nat) (p : SyncPayload) (s : DB) (did : String)
    (hdid : deviceIdOf p = some did) :
    (processSync now p s).state.bon2 =
      (processDocs did p.bon1 { t1 := s.bon1, t2 := s.bon2, headers := 0, lines := 0 }).t2 := by
  simp [processSync, hdid]

theorem processSync_state_bon1_temp (now : Nat) (p : SyncPayload) (s : DB) (did : String)
    (hdid : deviceIdOf p = some did) :
    (processSync now p s).state.bon1_temp =
      (processDocs did p.bon1_temp
        { t1 := s.bon1_temp, t2 := s.bon2_temp, headers := 0, lines := 0 }).t1 := by
  simp [processSync, hdid]

theorem processSync_state_bon2_temp (now : Nat) (p : SyncPayload) (s : DB) (did : String)
    (hdid : deviceIdOf p = some did) :
    (processSync now p s).state.bon2_temp =
      (processDocs did p.bon1_temp
        { t1 := s.bon1_temp, t2 := s.bon2_temp, headers := 0, lines := 0 }).t2 := by
  simp [processSync, hdid]

theorem processSync_state_clients (now : Nat) (p : SyncPayload) (s : DB) (did : String)
    (hdid : deviceIdOf p = some did) :
    (processSync now p s).state.clients = (ensureSyncClient now s.clients).1 := by
  simp [processSync, hdid]

theorem processSync_state_phones (now : Nat) (p : SyncPayload) (s : DB) (did : String)
    (hdid : deviceIdOf p = some did) :
    (processSync now p s).state.phones =
      upsertPhone now did (phoneNameOf (p.device.getD emptyDevice))
        (ensureSyncClient now s.clients).2 s.phones := by
  simp [processSync, hdid]

theorem processSync_resp (now : Nat) (p : SyncPayload) (s : DB) (did : String)
    (hdid : deviceIdOf p = some did) :
    (processSync now p s).resp = .ok did
      { updatedBon1 := validDocCount p.bon1
        insertedBon2 := submittedLines p.bon1
        updatedBon1Temp := validDocCount p.bon1_temp
        insertedBon2Temp := submittedLines p.bon1_temp } := by
  simp [processSync, hdid, processDocs_headers, processDocs_lines]

theorem processSync_connOpened (now : Nat) (p : SyncPayload) (s : DB) (did : String)
    (hdid : deviceIdOf p = some did) :
    (processSync now p s).connOpened = true := by
  simp [processSync, hdid]

/-! ### Lemmas about the clients and phones tables -/

theorem findClient_mem (u : String) (cs : List ClientRow) (c : ClientRow)
    (h : findClientByUsername u cs = some c) : c ∈ cs ∧ c.username = u := by
  induction cs with
  | nil => simp [findClientByUsername] at h
  | cons x xs ih =>
    rw [findClientByUsername] at h
    by_cases hx : x.username = u
    · rw [if_pos hx] at h
      obtain rfl : x = c := by simpa using h
      exact ⟨List.mem_cons_self _ _, hx⟩
    · rw [if_neg hx] at h
      exact ⟨List.mem_cons_of_mem _ (ih h).1, (ih h).2⟩

theorem ensureSyncClient_found (now : Nat) (cs : List ClientRow) (c : ClientRow)
    (hg : goodClients cs) (hf : findClientByUsername "device_sync" cs = some c) :
    ensureSyncClient now cs = (cs, c.client_id) := by
  obtain ⟨hm, hu⟩ := findClient_mem _ _ _ hf
  have hne : c.client_id ≠ 0 := hg c hm hu
  simp [ensureSyncClient, hf, hne]

theorem ensureSyncClient_missing (now : Nat) (cs : List ClientRow)
    (hf : findClientByUsername "device_sync" cs = none) :
    ensureSyncClient now cs = insertSyncClient now cs := by
  simp [ensureSyncClient, hf]

theorem findClient_append_of_none (u : String) (cs : List ClientRow) (c2 : ClientRow)
    (hf : findClientByUsername u cs = none) :
    findClientByUsername u (cs ++ [c2]) =
      if c2.username = u then some c2 else none := by
  induction cs with
  | nil => rfl
  | cons x xs ih =>
    rw [findClientByUsername] at hf
    by_cases hx : x.username = u
    · simp [hx] at hf
    · rw [if_neg hx] at hf
      simp only [List.cons_append, findClientByUsername, if_neg hx]
      exact ih hf

theorem goodClients_insert (now : Nat) (cs : List ClientRow) (hg : goodClients cs) :
    goodClients (insertSyncClient now cs).1 := by
  intro c hc hu
  rw [insertSyncClient] at hc
  rcases List.mem_append.1 hc with hm | hm
  · exact hg c hm hu
  · simp at hm
    subst hm
    simp

theorem ensureSyncClient_id_ne_zero (now : Nat) (cs : List ClientRow)
    (hg : goodClients cs) : (ensureSyncClient now cs).2 ≠ 0 := by
  rw [ensureSyncClient]
  cases hf : findClientByUsername "device_sync" cs with
  | none => simp [insertSyncClient]
  | some c =>
    obtain ⟨hm, hu⟩ := findClient_mem _ _ _ hf
    have hne : c.client_id ≠ 0 := hg c hm hu
    simp [hne, insertSyncClient]

theorem goodClients_ensure (now : Nat) (cs : List ClientRow) (hg : goodClients cs) :
    goodClients (ensureSyncClient now cs).1 := by
  rw [ensureSyncClient]
  cases hf : findClientByUsername "device_sync" cs with
  | none => simpa using goodClients_insert now cs hg
  | some c =>
    by_cases hne : c.client_id ≠ 0
    · simpa [hne] using hg
    · simpa [hne] using goodClients_insert now cs hg

theorem findPhone_append_of_none (pid : String) (ps : List PhoneRow) (q : PhoneRow)
    (hf : findPhone pid ps = none) :
    findPhone pid (ps ++ [q]) = if q.phone_id = pid then some q else none := by
  induction ps with
  | nil => rfl
  | cons x xs ih =>
    rw [findPhone] at hf
    by_cases hx : x.phone_id = pid
    · simp [hx] at hf
    · rw [if_neg hx] at hf
      simp only [List.cons_append, findPhone, if_neg hx]
      exact ih hf

theorem findPhone_map_update (now : Nat) (pid : String) (ps : List PhoneRow)
    (q : PhoneRow) (hf : findPhone pid ps = some q) :
    findPhone pid
      (ps.map (fun p => if p.phone_id = pid then { p with last_update := now } else p)) =
      some { q with last_update := now } := by
  induction ps with
  | nil => simp [findPhone] at hf
  | cons x xs ih =>
    rw [findPhone] at hf
    by_cases hx : x.phone_id = pid
    · rw [if_pos hx] at hf
      obtain rfl : x = q := by simpa using hf
      simp [findPhone, hx]
    · rw [if_neg hx] at hf
      simp only [List.map_cons, if_neg hx, findPhone]
      exact ih hf

theorem upsertPhone_missing (now : Nat) (pid name : String) (cid : Nat)
    (ps : List PhoneRow) (hf : findPhone pid ps = none) :
    upsertPhone now pid name cid ps =
      ps ++ [{ phone_id := pid, phone_name := name, client_id := cid,
               last_update := now }] := by
  simp [upsertPhone, hf]

theorem upsertPhone_found (now : Nat) (pid name : String) (cid : Nat)
    (ps : List PhoneRow) (q : PhoneRow) (hf : findPhone pid ps = some q) :
    upsertPhone now pid name cid ps =
      ps.map (fun p => if p.phone_id = pid then { p with last_update := now } else p) := by
  simp [upsertPhone, hf]

theorem findClient_after_insert (now : Nat) (cs : List ClientRow)
    (hf : findClientByUsername "device_sync" cs = none) :
    findClientByUsername "device_sync" (insertSyncClient now cs).1 =
      some { client_id := maxClientId cs + 1, username := "device_sync",
             password := "sync", full_name := "Device Sync", email := none,
             is_admin := 0, statut := "active", last_login := now,
             nbr_phones := 0 } := by
  show findClientByUsername "device_sync"
      (cs ++ [{ client_id := maxClientId cs + 1, username := "device_sync",
                password := "sync", full_name := "Device Sync", email := none,
                is_admin := 0, statut := "active", last_login := now,
                nbr_phones := 0 }]) = _
  rw [findClient_append_of_none _ _ _ hf]
  simp

theorem ensureSyncClient_stable (now now2 : Nat) (cs : List ClientRow)
    (hg : goodClients cs) :
    (ensureSyncClient now2 (ensureSyncClient now cs).1).1 =
      (ensureSyncClient now cs).1 := by
  cases hf : findClientByUsername "device_sync" cs with
  | some c =>
    rw [ensureSyncClient_found now cs c hg hf]
    rw [ensureSyncClient_found now2 cs c hg hf]
  | none =>
    rw [ensureSyncClient_missing now cs hf]
    have hg2 : goodClients (insertSyncClient now cs).1 := goodClients_insert now cs hg
    rw [ensureSyncClient_found now2 _ _ hg2 (findClient_after_insert now cs hf)]

/-! ### Claim C5 -/

/-- Claim C5 (confirmed): a batch without a non-empty device identifier is
rejected with the 400-class client error before any side effect — no
connection/transaction is obtained and the store is bit-for-bit unchanged. -/
theorem claim_C5_thm (now : Nat) (p : SyncPayload) (s : DB)
    (h : deviceIdOf p = none) :
    processSync now p s = { state := s, resp := .badRequest, connOpened := false } := by
  simp [processSync, h]

/-- Witness for C5: the concrete batch with no device object is rejected
with the store untouched. -/
theorem claim_C5_witness :
    processSync 0 noDevPayload demoDB =
      { state := demoDB, resp := .badRequest, connOpened := false } :=
  claim_C5_thm 0 noDevPayload demoDB (by decide)

/-! ### Claim C9 -/

/-- Claim C9 (confirmed): a batch supplying only `device.phone_id` (no
`device.device_id`) is processed normally: the identifier falls back to
`phone_id`, the transaction is opened and the run answers ok under that
identifier. -/
theorem claim_C9_thm (now : Nat) (p : SyncPayload) (s : DB) (d : DeviceInfo)
    (pid : String) (hdev : p.device = some d) (hno : d.device_id = none)
    (hpid : d.phone_id = some pid) (hne : pid ≠ "") :
    (processSync now p s).connOpened = true ∧
    (processSync now p s).resp = .ok pid
      { updatedBon1 := validDocCount p.bon1
        insertedBon2 := submittedLines p.bon1
        updatedBon1Temp := validDocCount p.bon1_temp
        insertedBon2Temp := submittedLines p.bon1_temp } := by
  have hdid : deviceIdOf p = some pid := by
    simp [deviceIdOf, hdev, hno, hpid, jsStr, hne, Option.orElse]
  exact ⟨processSync_connOpened now p s pid hdid, processSync_resp now p s pid hdid⟩

/-- Witness for C9: the phone-id-only batch is accepted as device `p7`. -/
theorem claim_C9_witness :
    (processSync 0 phoneOnlyPayload demoDB).connOpened = true ∧
    (processSync 0 phoneOnlyPayload demoDB).resp = .ok "p7"
      { updatedBon1 := 0, insertedBon2 := 0,
        updatedBon1Temp := 0, insertedBon2Temp := 0 } :=
  claim_C9_thm 0 phoneOnlyPayload demoDB { phone_id := some "p7" } "p7"
    rfl rfl rfl (by decide)

/-! ### Claim C4 -/

/-- Claim C4 (confirmed): if any query of the batch — device/account
resolution, location append, header upsert, line delete/insert, or the
commit itself — throws a storage error, the transaction is rolled back and
the Document Store, Device Registry and Location Log are all exactly their
pre-batch state. -/
theorem claim_C4_thm (now fuel : Nat) (p : SyncPayload) (s : DB)
    (h : (processSyncTx now fuel p s).resp = .serverError) :
    (processSyncTx now fuel p s).state = s := by
  cases hdid : deviceIdOf p with
  | none => simp [processSyncTx, hdid] at h
  | some did =>
    cases hb : syncTxBody now fuel (p.device.getD emptyDevice) did p.bon1 p.bon1_temp s with
    | none => simp [processSyncTx, hdid, hb]
    | some v =>
      obtain ⟨s2, stats⟩ := v
      simp [processSyncTx, hdid, hb] at h

/-- Witness for C4: with fuel for only two queries, the demo batch faults
at the location insert and the store is returned unchanged. -/
theorem claim_C4_witness :
    (processSyncTx 0 2 demoPayload demoDB).state = demoDB :=
  claim_C4_thm 0 2 demoPayload demoDB (by decide)

/-! ### Claim C3 -/

/-- Claim C3 (confirmed): a successful sync replaces, per document number,
the whole `BON2` line set with exactly the submitted lines of the last
valid document bearing that number, in submission order; numbers not in
the batch keep their stored lines — never a mix of old and new. -/
theorem claim_C3_thm (now : Nat) (p : SyncPayload) (s : DB) (did num : String)
    (hdid : deviceIdOf p = some did) :
    rowsB2 num (processSync now p s).state.bon2 =
      match lastDocFor num p.bon1 with
      | some d => d.items.map (itemRow num (hdrOf d).CODE_DEPOT)
      | none => rowsB2 num s.bon2 := by
  rw [processSync_state_bon2 now p s did hdid]
  exact processDocs_t2 did p.bon1 _ num

/-- Witness for C3: after syncing the demo batch, document `B1` holds
exactly the translation of its one submitted line. -/
theorem claim_C3_witness :
    rowsB2 "B1" (processSync 3 demoPayload demoDB).state.bon2 =
      match lastDocFor "B1" demoPayload.bon1 with
      | some d => d.items.map (itemRow "B1" (hdrOf d).CODE_DEPOT)
      | none => rowsB2 "B1" demoDB.bon2 :=
  claim_C3_thm 3 demoPayload demoDB "dev1" "B1" (by decide)

/-! ### Claim C1 -/

/-- Claim C1 (counterexample): store `cexState` binds device `dev1` to
account 2, while the sync context implies the fallback account 1; the
claim says such a batch is aborted with a conflict signal before touching
any Document, but the endpoint answers ok and writes the submitted sales
header. -/
theorem claim_C1_counterexample :
    (processSync 7 demoPayload cexState).resp = .ok "dev1"
      { updatedBon1 := 1, insertedBon2 := 1,
        updatedBon1Temp := 0, insertedBon2Temp := 0 } ∧
    cexState.bon1 = [] ∧
    (processSync 7 demoPayload cexState).state.bon1 ≠ [] := by
  decide

/-- Claim C1 (amended): the sync endpoint performs no ownership-conflict
check at all — even when the device's stored owner differs from the
account implied by the sync context, the batch is processed to an ok
response, and the device row keeps its owner and name (only the
last-contact timestamp is updated). The conflict signal exists only in
the separate phone-auth endpoint. -/
theorem claim_C1_thm (now : Nat) (p : SyncPayload) (s : DB) (did : String)
    (q : PhoneRow) (hdid : deviceIdOf p = some did)
    (hq : findPhone did s.phones = some q)
    (_hdiff : q.client_id ≠ (ensureSyncClient now s.clients).2) :
    (processSync now p s).resp = .ok did
      { updatedBon1 := validDocCount p.bon1
        insertedBon2 := submittedLines p.bon1
        updatedBon1Temp := validDocCount p.bon1_temp
        insertedBon2Temp := submittedLines p.bon1_temp } ∧
    findPhone did (processSync now p s).state.phones =
      some { q with last_update := now } := by
  refine ⟨processSync_resp now p s did hdid, ?_⟩
  rw [processSync_state_phones now p s did hdid,
    upsertPhone_found now did _ _ s.phones q hq,
    findPhone_map_update now did s.phones q hq]

/-- Witness for C1 (amended form) at the counterexample store: the batch
is processed and `dev1` still belongs to account 2 afterwards. -/
theorem claim_C1_witness :
    (processSync 7 demoPayload cexState).resp = .ok "dev1"
      { updatedBon1 := validDocCount demoPayload.bon1
        insertedBon2 := submittedLines demoPayload.bon1
        updatedBon1Temp := validDocCount demoPayload.bon1_temp
        insertedBon2Temp := submittedLines demoPayload.bon1_temp } ∧
    findPhone "dev1" (processSync 7 demoPayload cexState).state.phones =
      some { alicePhone with last_update := 7 } :=
  claim_C1_thm 7 demoPayload cexState "dev1" alicePhone
    (by decide) (by decide) (by decide)

/-! ### Claim C8 -/

/-- Claim C8 (confirmed): the stored header row of an upserted document is
exactly the translation of the incoming header, in which an absent
latitude/longitude is stored as 0, absent `LIVRER`/`IS_IMPORTED`/
`IS_EXPORTED` are stored as 0, and every other absent optional
numeric/date field is stored as null. -/
theorem claim_C8_thm (now : Nat) (p : SyncPayload) (s : DB) (did num : String)
    (d : BonDoc) (hdid : deviceIdOf p = some did) (hu : uniqB1 s.bon1 = true)
    (hd : lastDocFor num p.bon1 = some d) :
    rowsB1 num (processSync now p s).state.bon1 = [headerRow did num (hdrOf d)] ∧
    ((hdrOf d).LATITUDE = none → (headerRow did num (hdrOf d)).LATITUDE = 0) ∧
    ((hdrOf d).LONGITUDE = none → (headerRow did num (hdrOf d)).LONGITUDE = 0) ∧
    ((hdrOf d).LIVRER = none → (headerRow did num (hdrOf d)).LIVRER = 0) ∧
    ((hdrOf d).IS_IMPORTED = none → (headerRow did num (hdrOf d)).IS_IMPORTED = 0) ∧
    ((hdrOf d).IS_EXPORTED = none → (headerRow did num (hdrOf d)).IS_EXPORTED = 0) ∧
    ((hdrOf d).NBR_P = none → (headerRow did num (hdrOf d)).NBR_P = none) ∧
    ((hdrOf d).TOT_QTE = none → (headerRow did num (hdrOf d)).TOT_QTE = none) ∧
    ((hdrOf d).TOT_HT = none → (headerRow did num (hdrOf d)).TOT_HT = none) ∧
    ((hdrOf d).TOT_TVA = none → (headerRow did num (hdrOf d)).TOT_TVA = none) ∧
    ((hdrOf d).TIMBRE = none → (headerRow did num (hdrOf d)).TIMBRE = none) ∧
    ((hdrOf d).REMISE = none → (headerRow did num (hdrOf d)).REMISE = none) ∧
    ((hdrOf d).MONTANT_ACHAT = none →
      (headerRow did num (hdrOf d)).MONTANT_ACHAT = none) ∧
    ((hdrOf d).ANCIEN_SOLDE = none →
      (headerRow did num (hdrOf d)).ANCIEN_SOLDE = none) ∧
    ((hdrOf d).VERSER = none → (headerRow did num (hdrOf d)).VERSER = none) ∧
    ((hdrOf d).DATE_BON = none → (headerRow did num (hdrOf d)).DATE_BON = none) ∧
    ((hdrOf d).HEURE = none → (headerRow did num (hdrOf d)).HEURE = none) ∧
    ((hdrOf d).DATE_LIV = none → (headerRow did num (hdrOf d)).DATE_LIV = none) := by
  refine ⟨?_, ?_, ?_, ?_, ?_, ?_, ?_, ?_, ?_, ?_, ?_, ?_, ?_, ?_, ?_, ?_, ?_, ?_⟩
  · rw [processSync_state_bon1 now p s did hdid,
      processDocs_t1 did p.bon1 _ num hu, hd]
    rfl
  all_goals (intro hh; simp [headerRow, jsStr, hh])

/-- Witness for C8: syncing the bare header `B9` stores zero coordinates
and flags and null for the other optional fields. -/
theorem claim_C8_witness :
    rowsB1 "B9" (processSync 4 barePayload demoDB).state.bon1 =
      [headerRow "dev1" "B9" bareHeader] ∧
    (headerRow "dev1" "B9" bareHeader).LATITUDE = 0 ∧
    (headerRow "dev1" "B9" bareHeader).LONGITUDE = 0 ∧
    (headerRow "dev1" "B9" bareHeader).LIVRER = 0 ∧
    (headerRow "dev1" "B9" bareHeader).IS_IMPORTED = 0 ∧
    (headerRow "dev1" "B9" bareHeader).IS_EXPORTED = 0 ∧
    (headerRow "dev1" "B9" bareHeader).REMISE = none ∧
    (headerRow "dev1" "B9" bareHeader).TOT_HT = none ∧
    (headerRow "dev1" "B9" bareHeader).DATE_LIV = none := by
  obtain ⟨h0, h1, h2, h3, h4, h5, h6, h7, h8, h9, h10, h11, h12, h13, h14, h15,
      h16, h17⟩ :=
    claim_C8_thm 4 barePayload demoDB "dev1" "B9" { header := some bareHeader }
      (by decide) (by decide) (by decide)
  exact ⟨h0, h1 rfl, h2 rfl, h3 rfl, h4 rfl, h5 rfl, h11 rfl, h8 rfl, h17 rfl⟩

/-! ### Claim C10 -/

/-- Claim C10 (confirmed): every stored line's depot code is the line's
own (truthy) `CODE_DEPOT`, falling back to the parent header's, and is
null exactly when both are absent/empty; an absent line `QTE` is stored as
0 while the other absent optional numeric line fields are stored as null. -/
theorem claim_C10_thm (now : Nat) (p : SyncPayload) (s : DB) (did num : String)
    (d : BonDoc) (it : BonItem) (hdid : deviceIdOf p = some did)
    (hd : lastDocFor num p.bon1 = some d) (hit : it ∈ d.items) :
    rowsB2 num (processSync now p s).state.bon2 =
      d.items.map (itemRow num (hdrOf d).CODE_DEPOT) ∧
    itemRow num (hdrOf d).CODE_DEPOT it ∈
      rowsB2 num (processSync now p s).state.bon2 ∧
    ((itemRow num (hdrOf d).CODE_DEPOT it).CODE_DEPOT = none ↔
      (jsStr it.CODE_DEPOT = none ∧ jsStr (hdrOf d).CODE_DEPOT = none)) ∧
    (jsStr it.CODE_DEPOT = none →
      (itemRow num (hdrOf d).CODE_DEPOT it).CODE_DEPOT =
        jsStr (hdrOf d).CODE_DEPOT) ∧
    (jsStr it.CODE_DEPOT ≠ none →
      (itemRow num (hdrOf d).CODE_DEPOT it).CODE_DEPOT = jsStr it.CODE_DEPOT) ∧
    (it.QTE = none → (itemRow num (hdrOf d).CODE_DEPOT it).QTE = 0) ∧
    (it.NBRE_COLIS = none →
      (itemRow num (hdrOf d).CODE_DEPOT it).NBRE_COLIS = none) ∧
    (it.COLISSAGE = none → (itemRow num (hdrOf d).CODE_DEPOT it).COLISSAGE = none) ∧
    (it.QTE_GRAT = none → (itemRow num (hdrOf d).CODE_DEPOT it).QTE_GRAT = none) ∧
    (it.PV_HT = none → (itemRow num (hdrOf d).CODE_DEPOT it).PV_HT = none) ∧
    (it.PA_HT = none → (itemRow num (hdrOf d).CODE_DEPOT it).PA_HT = none) ∧
    (it.DESTOCK_QTE = none →
      (itemRow num (hdrOf d).CODE_DEPOT it).DESTOCK_QTE = none) ∧
    (it.TVA = none → (itemRow num (hdrOf d).CODE_DEPOT it).TVA = none) := by
  have h0 : rowsB2 num (processSync now p s).state.bon2 =
      d.items.map (itemRow num (hdrOf d).CODE_DEPOT) := by
    rw [processSync_state_bon2 now p s did hdid,
      processDocs_t2 did p.bon1 _ num, hd]
    rfl
  refine ⟨h0, ?_, ?_, ?_, ?_, ?_, ?_, ?_, ?_, ?_, ?_, ?_, ?_⟩
  · rw [h0]
    exact List.mem_map_of_mem _ hit
  · cases hjs : jsStr it.CODE_DEPOT with
    | none => simp [itemRow, Option.orElse, hjs]
    | some v => simp [itemRow, Option.orElse, hjs]
  · intro hh; simp [itemRow, Option.orElse, hh]
  · intro hh
    cases hjs : jsStr it.CODE_DEPOT with
    | none => exact absurd hjs hh
    | some v => simp [itemRow, Option.orElse, hjs]
  all_goals (intro hh; simp [itemRow, hh])

/-- Witness for C10: the all-absent demo line under header `B2` (depot
`D1`) is stored with depot `D1` and quantity 0 and null tax. -/
theorem claim_C10_witness :
    rowsB2 "B2" (processSync 5 depotPayload demoDB).state.bon2 =
      [itemRow "B2" (some "D1") depotItem] ∧
    (itemRow "B2" (some "D1") depotItem).CODE_DEPOT = some "D1" ∧
    (itemRow "B2" (some "D1") depotItem).QTE = 0 ∧
    (itemRow "B2" (some "D1") depotItem).TVA = none := by
  obtain ⟨h0, hmem, hiff, hfall, hown, hq, hc1, hc2, hc3, hc4, hc5, hc6, htva⟩ :=
    claim_C10_thm 5 depotPayload demoDB "dev1" "B2" depotDoc depotItem
      (by decide) (by decide) (by decide)
  exact ⟨h0, hfall rfl, hq rfl, htva rfl⟩

/-! ### Claim C2 -/

/-- Claim C2 (confirmed): submitting the identical batch twice in
sequence leaves the document store (headers and per-number line sets, for
both families) in the same state as submitting it once, and the second
response carries exactly the same headers-touched / lines-inserted counts
as the first — a pure overwrite, no duplication. -/
theorem claim_C2_thm (now now2 : Nat) (p : SyncPayload) (s : DB)
    (h1 : uniqB1 s.bon1 = true) (h2 : uniqB1 s.bon1_temp = true)
    (did : String) (st1 st2 : SyncStats)
    (hr1 : (processSync now p s).resp = .ok did st1)
    (hr2 : (processSync now2 p (processSync now p s).state).resp = .ok did st2) :
    docTablesEq (processSync now2 p (processSync now p s).state).state
      (processSync now p s).state ∧ st2 = st1 := by
  cases hdid : deviceIdOf p with
  | none => simp [processSync, hdid] at hr1
  | some did0 =>
    rw [processSync_resp now p s did0 hdid] at hr1
    rw [processSync_resp now2 p (processSync now p s).state did0 hdid] at hr2
    injection hr1 with hd1 hs1
    injection hr2 with hd2 hs2
    refine ⟨?_, by rw [← hs2, ← hs1]⟩
    have hu1 : uniqB1 (processSync now p s).state.bon1 = true := by
      rw [processSync_state_bon1 now p s did0 hdid]
      exact processDocs_uniq did0 p.bon1 _ h1
    have hu2 : uniqB1 (processSync now p s).state.bon1_temp = true := by
      rw [processSync_state_bon1_temp now p s did0 hdid]
      exact processDocs_uniq did0 p.bon1_temp _ h2
    intro num
    have L1 : rowsB1 num (processSync now p s).state.bon1 =
        match lastDocFor num p.bon1 with
        | some d => [headerRow did0 num (d.header.getD emptyHeader)]
        | none => rowsB1 num s.bon1 := by
      rw [processSync_state_bon1 now p s did0 hdid]
      exact processDocs_t1 did0 p.bon1 _ num h1
    have L2 : rowsB1 num
        (processSync now2 p (processSync now p s).state).state.bon1 =
        match lastDocFor num p.bon1 with
        | some d => [headerRow did0 num (d.header.getD emptyHeader)]
        | none => rowsB1 num (processSync now p s).state.bon1 := by
      rw [processSync_state_bon1 now2 p (processSync now p s).state did0 hdid]
      exact processDocs_t1 did0 p.bon1 _ num hu1
    have M1 : rowsB2 num (processSync now p s).state.bon2 =
        match lastDocFor num p.bon1 with
        | some d => d.items.map (itemRow num (d.header.getD emptyHeader).CODE_DEPOT)
        | none => rowsB2 num s.bon2 := by
      rw [processSync_state_bon2 now p s did0 hdid]
      exact processDocs_t2 did0 p.bon1 _ num
    have M2 : rowsB2 num
        (processSync now2 p (processSync now p s).state).state.bon2 =
        match lastDocFor num p.bon1 with
        | some d => d.items.map (itemRow num (d.header.getD emptyHeader).CODE_DEPOT)
        | none => rowsB2 num (processSync now p s).state.bon2 := by
      rw [processSync_state_bon2 now2 p (processSync now p s).state did0 hdid]
      exact processDocs_t2 did0 p.bon1 _ num
    have T1 : rowsB1 num (processSync now p s).state.bon1_temp =
        match lastDocFor num p.bon1_temp with
        | some d => [headerRow did0 num (d.header.getD emptyHeader)]
        | none => rowsB1 num s.bon1_temp := by
      rw [processSync_state_bon1_temp now p s did0 hdid]
      exact processDocs_t1 did0 p.bon1_temp _ num h2
    have T2 : rowsB1 num
        (processSync now2 p (processSync now p s).state).state.bon1_temp =
        match lastDocFor num p.bon1_temp with
        | some d => [headerRow did0 num (d.header.getD emptyHeader)]
        | none => rowsB1 num (processSync now p s).state.bon1_temp := by
      rw [processSync_state_bon1_temp now2 p (processSync now p s).state did0 hdid]
      exact processDocs_t1 did0 p.bon1_temp _ num hu2
    have U1 : rowsB2 num (processSync now p s).state.bon2_temp =
        match lastDocFor num p.bon1_temp with
        | some d => d.items.map (itemRow num (d.header.getD emptyHeader).CODE_DEPOT)
        | none => rowsB2 num s.bon2_temp := by
      rw [processSync_state_bon2_temp now p s did0 hdid]
      exact processDocs_t2 did0 p.bon1_temp _ num
    have U2 : rowsB2 num
        (processSync now2 p (processSync now p s).state).state.bon2_temp =
        match lastDocFor num p.bon1_temp with
        | some d => d.items.map (itemRow num (d.header.getD emptyHeader).CODE_DEPOT)
        | none => rowsB2 num (processSync now p s).state.bon2_temp := by
      rw [processSync_state_bon2_temp now2 p (processSync now p s).state did0 hdid]
      exact processDocs_t2 did0 p.bon1_temp _ num
    refine ⟨?_, ?_, ?_, ?_⟩
    · rw [L2]
      cases hl : lastDocFor num p.bon1 with
      | some d => rw [L1, hl]
      | none => simp
    · rw [M2]
      cases hl : lastDocFor num p.bon1 with
      | some d => rw [M1, hl]
      | none => simp
    · rw [T2]
      cases hl : lastDocFor num p.bon1_temp with
      | some d => rw [T1, hl]
      | none => simp
    · rw [U2]
      cases hl : lastDocFor num p.bon1_temp with
      | some d => rw [U1, hl]
      | none => simp

/-- Witness for C2: syncing the demo batch twice yields per-number equal
document tables and identical counts for the two responses. -/
theorem claim_C2_witness :
    docTablesEq (processSync 2 demoPayload (processSync 1 demoPayload demoDB).state).state
      (processSync 1 demoPayload demoDB).state ∧
    ({ updatedBon1 := 1, insertedBon2 := 1,
       updatedBon1Temp := 0, insertedBon2Temp := 0 } : SyncStats) =
    { updatedBon1 := 1, insertedBon2 := 1,
      updatedBon1Temp := 0, insertedBon2Temp := 0 } :=
  claim_C2_thm 1 2 demoPayload demoDB rfl rfl "dev1" _ _ (by decide) (by decide)

/-! ### Claim C6 -/

/-- Claim C6 (counterexample): the claim says a malformed document is
"skipped with a counter increment ... reflected in the returned counts";
in fact no counter records the skip — the whole result (response included)
of a batch containing the malformed document is identical to that of the
batch without it, so the returned counts carry no trace of the skip. -/
theorem claim_C6_counterexample :
    processSync 3 c6PayloadBad demoDB = processSync 3 demoPayload demoDB ∧
    (processSync 3 c6PayloadBad demoDB).resp = .ok "dev1"
      { updatedBon1 := 1, insertedBon2 := 1,
        updatedBon1Temp := 0, insertedBon2Temp := 0 } := by
  decide

/-- Claim C6 (amended): a document whose header lacks a (truthy)
`NUM_BON` is skipped silently: no row is written for it, no counter is
incremented for it, the rest of the batch is processed unchanged, and the
returned counts include only the documents actually written — the run is
literally identical to the run on the batch without that document. -/
theorem claim_C6_thm (now : Nat) (p : SyncPayload) (s : DB)
    (pre post : List BonDoc) (bad : BonDoc) (hbad : docNum bad = none) :
    processSync now { p with bon1 := pre ++ bad :: post } s =
      processSync now { p with bon1 := pre ++ post } s := by
  have hdocs : ∀ (did : String) (st : DocState),
      processDocs did (pre ++ bad :: post) st = processDocs did (pre ++ post) st := by
    intro did st
    rw [processDocs_append, processDocs_append, processDocs,
      processDoc_skip did bad _ hbad]
  cases hdid : deviceIdOf p with
  | none =>
    have ha : deviceIdOf { p with bon1 := pre ++ bad :: post } = none := hdid
    have hb : deviceIdOf { p with bon1 := pre ++ post } = none := hdid
    simp [processSync, ha, hb]
  | some did =>
    have ha : deviceIdOf { p with bon1 := pre ++ bad :: post } = some did := hdid
    have hb : deviceIdOf { p with bon1 := pre ++ post } = some did := hdid
    simp only [processSync, ha, hb]
    rw [hdocs did]

/-- Witness for C6 (amended form): inserting the number-less document into
the demo batch leaves the entire sync result unchanged. -/
theorem claim_C6_witness :
    processSync 3 { demoPayload with bon1 := [] ++ badDoc :: [demoDoc] } demoDB =
      processSync 3 { demoPayload with bon1 := [] ++ [demoDoc] } demoDB :=
  claim_C6_thm 3 demoPayload demoDB [] [demoDoc] badDoc (by decide)

/-! ### Claim C7 -/

/-- Claim C7 (confirmed): a sync from an unseen device identifier appends
exactly one phone row, bound to the fallback account's id; the fallback
`device_sync` account row is created only when absent (otherwise the
clients table is untouched); and a second sync from the same identifier
creates no phone or client rows — it only refreshes the device's
last-contact timestamp. -/
theorem claim_C7_thm (now now2 : Nat) (p p2 : SyncPayload) (s : DB) (did : String)
    (hdid : deviceIdOf p = some did) (hdid2 : deviceIdOf p2 = some did)
    (hunseen : findPhone did s.phones = none)
    (hg : goodClients s.clients) :
    (processSync now p s).state.phones = s.phones ++
      [{ phone_id := did, phone_name := phoneNameOf (p.device.getD emptyDevice),
         client_id := (ensureSyncClient now s.clients).2, last_update := now }] ∧
    ((findClientByUsername "device_sync" s.clients).isSome = true →
      (processSync now p s).state.clients = s.clients) ∧
    (findClientByUsername "device_sync" s.clients = none →
      (processSync now p s).state.clients = (insertSyncClient now s.clients).1) ∧
    (processSync now2 p2 (processSync now p s).state).state.clients =
      (processSync now p s).state.clients ∧
    (processSync now2 p2 (processSync now p s).state).state.phones =
      (processSync now p s).state.phones.map
        (fun q => if q.phone_id = did then { q with last_update := now2 } else q) := by
  have hph1 : (processSync now p s).state.phones = s.phones ++
      [{ phone_id := did, phone_name := phoneNameOf (p.device.getD emptyDevice),
         client_id := (ensureSyncClient now s.clients).2, last_update := now }] := by
    rw [processSync_state_phones now p s did hdid,
      upsertPhone_missing now did _ _ s.phones hunseen]
  have hcl1 : (processSync now p s).state.clients =
      (ensureSyncClient now s.clients).1 :=
    processSync_state_clients now p s did hdid
  refine ⟨hph1, ?_, ?_, ?_, ?_⟩
  · intro hsome
    obtain ⟨c, hc⟩ := Option.isSome_iff_exists.mp hsome
    rw [hcl1, ensureSyncClient_found now s.clients c hg hc]
  · intro hnone
    rw [hcl1, ensureSyncClient_missing now s.clients hnone]
  · rw [processSync_state_clients now2 p2 (processSync now p s).state did hdid2, hcl1]
    exact ensureSyncClient_stable now now2 s.clients hg
  · rw [processSync_state_phones now2 p2 (processSync now p s).state did hdid2]
    have hf2 : findPhone did (processSync now p s).state.phones =
        some { phone_id := did,
               phone_name := phoneNameOf (p.device.getD emptyDevice),
               client_id := (ensureSyncClient now s.clients).2,
               last_update := now } := by
      rw [hph1, findPhone_append_of_none did s.phones _ hunseen]
      simp
    rw [upsertPhone_found now2 did _ _ _ _ hf2]

/-- Witness for C7: a first sync from the unseen `dev1` against the store
holding only the fallback account, followed by a second sync. -/
theorem claim_C7_witness :
    (processSync 1 demoPayload demoDB).state.phones = demoDB.phones ++
      [{ phone_id := "dev1",
         phone_name := phoneNameOf (demoPayload.device.getD emptyDevice),
         client_id := (ensureSyncClient 1 demoDB.clients).2, last_update := 1 }] ∧
    ((findClientByUsername "device_sync" demoDB.clients).isSome = true →
      (processSync 1 demoPayload demoDB).state.clients = demoDB.clients) ∧
    (findClientByUsername "device_sync" demoDB.clients = none →
      (processSync 1 demoPayload demoDB).state.clients =
        (insertSyncClient 1 demoDB.clients).1) ∧
    (processSync 2 demoPayload (processSync 1 demoPayload demoDB).state).state.clients =
      (processSync 1 demoPayload demoDB).state.clients ∧
    (processSync 2 demoPayload (processSync 1 demoPayload demoDB).state).state.phones =
      (processSync 1 demoPayload demoDB).state.phones.map
        (fun q => if q.phone_id = "dev1" then { q with last_update := 2 } else q) :=
  claim_C7_thm 1 2 demoPayload demoPayload demoDB "dev1"
    (by decide) (by decide) (by decide) (by decide)

end GeoTrack
